import Mathlib

/-!
# Verification of the TaskRun reconciler and PipelineRun cancellation propagator

A shallow embedding of the `taskrun` reconciler (condition/status data model,
execution-unit builder with entrypoint redirection, status projector,
timeout/retry/cancellation state machine) and of `cancelPipelineRun` from
`pkg/reconciler/v1alpha1/pipelinerun/cancel.go`.

The reconciler bodies are not part of the source tree (only their tests are),
so those definitions are modelled from the specification, with the exact
output shapes pinned by the expected values constructed in the test file.
`cancelPipelineRun` is embedded directly from its source.
-/

set_option maxHeartbeats 1000000

namespace Pipeline

/-- Status of the `Succeeded` condition: `corev1.ConditionTrue` /
`ConditionFalse` / `ConditionUnknown`. -/
inductive ConditionStatus where
  | conditionTrue
  | conditionFalse
  | conditionUnknown
deriving DecidableEq, Repr

/-- The run's `Succeeded` condition: status, reason code, human message
(`duckv1alpha1.Condition`, omitting type and transition time). -/
structure Condition where
  status : ConditionStatus
  reason : String
  message : String
deriving DecidableEq, Repr

/-- Runtime state of one container (`corev1.ContainerState`): at most one of
waiting / running / terminated is set; `unset` is the zero value. -/
inductive ContainerState where
  | unset
  | waiting (message : String)
  | running
  | terminated (exitCode : Int)
deriving DecidableEq, Repr

/-- One entry of `pod.Status.ContainerStatuses` (name, image identifier and
runtime state of a container). -/
structure ContainerStatus where
  name : String
  imageID : String
  state : ContainerState
deriving DecidableEq, Repr

/-- One entry of `pod.Status.Conditions`; the status is kept in its rendered
string form (`"True"` / `"False"` / `"Unknown"`). -/
structure PodCondition where
  condType : String
  condStatus : String
  message : String
deriving DecidableEq, Repr

/-- `corev1.PodPhase`; `phaseUnset` is the empty-string zero value. -/
inductive PodPhase where
  | phaseUnset
  | pending
  | running
  | succeeded
  | failed
deriving DecidableEq, Repr

/-- Observed status of the execution unit (`corev1.PodStatus`). -/
structure PodStatus where
  phase : PodPhase
  message : String
  initContainerStatuses : List ContainerStatus
  containerStatuses : List ContainerStatus
  conditions : List PodCondition
deriving DecidableEq, Repr

/-- One declared task step (name, image, command, arguments). -/
structure Step where
  name : String
  image : String
  command : List String
  args : List String
deriving DecidableEq, Repr

/-- A container of the built execution unit. -/
structure Container where
  name : String
  image : String
  command : List String
  args : List String
deriving DecidableEq, Repr

/-- A declared task parameter with its optional default. -/
structure TaskParam where
  name : String
  defaultValue : Option String
deriving DecidableEq, Repr

/-- A concrete parameter binding (`name` to `value`) on the run. -/
structure Param where
  name : String
  value : String
deriving DecidableEq, Repr

/-- Kind tag on a task reference: namespaced `Task` or `ClusterTask`. -/
inductive TaskKind where
  | task
  | clusterTask
deriving DecidableEq, Repr

/-- A named task reference with its kind tag. -/
structure TaskRef where
  name : String
  kind : TaskKind
deriving DecidableEq, Repr

/-- A resolved task definition body: ordered steps and declared input
parameters (resource slots are carried separately where needed). -/
structure TaskSpec where
  steps : List Step
  inputParams : List TaskParam
deriving DecidableEq, Repr

/-- A named (cluster-)task definition. -/
structure Task where
  name : String
  spec : TaskSpec
deriving DecidableEq, Repr

/-- The literal value of `v1alpha1.TaskRunSpecStatusCancelled`. -/
def taskRunSpecStatusCancelled : String := "TaskRunCancelled"

/-- The run's spec: task reference or inline task, parameter bindings,
optional timeout (nanoseconds), retry budget, and the cancellation flag
carried in `spec.status`. -/
structure TaskRunSpec where
  taskRef : Option TaskRef
  taskSpec : Option TaskSpec
  params : List Param
  timeout : Option Nat
  retries : Nat
  status : String
deriving DecidableEq, Repr

/-- The run's status: the `Succeeded` condition, the execution-unit (pod)
identifier, the recorded start time (nanoseconds), per-step states, and the
ordered prior-status list consumed by retries (`RetriesStatus`), which holds
whole archived statuses and is therefore recursive. -/
inductive TaskRunStatus where
  | mk (condition : Option Condition) (podName : String) (startTime : Option Nat)
       (steps : List ContainerState) (retriesStatus : List TaskRunStatus)

/-- The archived `Succeeded` condition of a status snapshot. -/
def TaskRunStatus.condition : TaskRunStatus → Option Condition
  | .mk c _ _ _ _ => c

/-- The execution-unit (pod) identifier recorded on a status snapshot. -/
def TaskRunStatus.podName : TaskRunStatus → String
  | .mk _ p _ _ _ => p

/-- The recorded start time of a status snapshot. -/
def TaskRunStatus.startTime : TaskRunStatus → Option Nat
  | .mk _ _ t _ _ => t

/-- The per-step states of a status snapshot. -/
def TaskRunStatus.steps : TaskRunStatus → List ContainerState
  | .mk _ _ _ s _ => s

/-- The prior-status list consumed by retries. -/
def TaskRunStatus.retriesStatus : TaskRunStatus → List TaskRunStatus
  | .mk _ _ _ _ r => r

/-- Replace the `Succeeded` condition of a status, keeping all other fields
(`status.SetCondition`). -/
def TaskRunStatus.setCondition : TaskRunStatus → Condition → TaskRunStatus
  | .mk _ p t s r, c => .mk (some c) p t s r

/-- A run: identity plus spec and status. -/
structure TaskRun where
  name : String
  ns : String
  spec : TaskRunSpec
  status : TaskRunStatus

/-- Cluster actions the reconciler can request on the execution unit. -/
inductive Action where
  | createPod (initContainers : List Container) (containers : List Container)
  | deletePod (name : String)
deriving DecidableEq, Repr

example : taskRunSpecStatusCancelled = "TaskRunCancelled" := rfl

/-! ## Go duration rendering

The timeout message embeds the Go rendering of the configured duration
(`time.Duration.String()`), reproduced here for nonnegative durations in
nanoseconds. -/

/-- Decimal digits of `v` padded to `prec` digits with trailing zeros
removed, rendered as a fraction part (empty when zero), together with
`v / 10 ^ prec` (Go's `fmtFrac`). -/
def goFrac (v : Nat) (prec : Nat) : String × Nat :=
  let whole := v / 10 ^ prec
  let frac := v % 10 ^ prec
  if frac = 0 then ("", whole)
  else
    let ds := Nat.toDigits 10 frac
    let padded := List.replicate (prec - ds.length) '0' ++ ds
    let trimmed := (padded.reverse.dropWhile (fun c => c = '0')).reverse
    ("." ++ String.mk trimmed, whole)

/-- Go's `time.Duration.String()` on a nonnegative duration given in
nanoseconds. -/
def goDurationString (d : Nat) : String :=
  if d = 0 then "0s"
  else if d < 1000 then toString d ++ "ns"
  else if d < 1000000 then
    let p := goFrac d 3
    toString p.2 ++ p.1 ++ "µs"
  else if d < 1000000000 then
    let p := goFrac d 6
    toString p.2 ++ p.1 ++ "ms"
  else
    let p := goFrac d 9
    let u := p.2
    let s := toString (u % 60) ++ p.1 ++ "s"
    let u := u / 60
    if u = 0 then s
    else
      let m := toString (u % 60) ++ "m" ++ s
      let u := u / 60
      if u = 0 then m else toString u ++ "h" ++ m

example : goDurationString 10000000000 = "10s" := by decide
example : goDurationString 1000 = "1µs" := by decide
example : goDurationString 0 = "0s" := by decide

/-! ## Execution-unit builder (entrypoint redirection)

Modelled from the spec (§4.3); the exact container shapes are pinned by the
expected pods built in the test file. -/

/-- Path of the synchronization helper binary inside the shared tools
volume. -/
def entrypointLocation : String := "/builder/tools/entrypoint"

/-- "Post" file path for user-visible container position `i`: an index file
under the tools volume. -/
def postFile (i : Nat) : String := "/builder/tools/" ++ toString i

/-- "Wait" file path for user-visible container position `i`: the previous
container's post path, the empty string at position 0. -/
def waitFileAt (i : Nat) : String := if i = 0 then "" else postFile (i - 1)

/-- Modelled from the spec: entry-point rewriting of the container at
position `i` of the user-visible sequence — the synchronization helper is
invoked with the wait path, a post path unique to the position, and the
original command and arguments after a separator. -/
def makeRedirectedContainer (i : Nat) (s : Step) : Container :=
  { name := "build-step-" ++ s.name
    image := s.image
    command := [entrypointLocation]
    args := ["-wait_file", waitFileAt i, "-post_file", postFile i, "-entrypoint"]
      ++ s.command ++ ["--"] ++ s.args }

/-- The terminal sentinel container appended after all real steps (fixed
image and command, pinned by the expected pods in the test file). -/
def nopContainer : Container :=
  { name := "nop", image := "override-with-nop:latest", command := ["/ko-app/nop"], args := [] }

/-- The credentials-initializer init container (fixed shape from the test
file; the suffix is the bounded random name suffix). -/
def credsInitContainer (suffix : String) : Container :=
  { name := "build-step-credential-" ++ "initializer-" ++ suffix
    image := "override-with-creds:latest"
    command := ["/ko-app/creds-init"]
    args := [] }

/-- The tool-placement init container copying the synchronization helper
into the tools volume (fixed shape from the test file). -/
def placeToolsInitContainer : Container :=
  { name := "build-step-place-tools"
    image := "override-with-entrypoint:latest"
    command := ["/bin/sh"]
    args := ["-c", "if [[ -d /ko-app ]]; then cp /ko-app/entrypoint /builder/tools/entrypoint; else cp /ko-app /builder/tools/entrypoint;  fi;"] }

/-- Modelled from the spec: the ordered user-visible container sequence,
each container's entry point redirected through the synchronization helper
with position-indexed wait/post files. -/
def makeUserContainers (steps : List Step) : List Container :=
  steps.enum.map fun p => makeRedirectedContainer p.1 p.2

/-- Modelled from the spec: the full ordered container list of the built
execution unit — input-resource fetch containers, the task's declared steps,
output-resource copy containers (all redirected), then the terminal
sentinel. -/
def makePodContainers (inputSteps taskSteps outputSteps : List Step) : List Container :=
  makeUserContainers (inputSteps ++ taskSteps ++ outputSteps) ++ [nopContainer]

/-- Modelled from the spec: the fixed init containers preceding all
user-visible containers. -/
def makePodInitContainers (suffix : String) : List Container :=
  [credsInitContainer suffix, placeToolsInitContainer]

/-- The wait path a built container passes to the synchronization helper
(`-wait_file` flag value), when its entry point was redirected. -/
def waitFileOf (c : Container) : Option String :=
  match c.args with
  | f :: w :: _ => if f = "-wait_file" then some w else none
  | _ => none

/-- The post path a built container passes to the synchronization helper
(`-post_file` flag value), when its entry point was redirected. -/
def postFileOf (c : Container) : Option String :=
  match c.args with
  | _ :: _ :: f :: p :: _ => if f = "-post_file" then some p else none
  | _ => none

/-! ## Templating engine

Modelled from the spec (§4.2): textual, non-recursive substitution of
parameter expressions in step commands, arguments and volume sources. -/

/-- The parameter expression for `name`. -/
def paramKey (name : String) : String := "$\x7binputs.params." ++ name ++ "\x7d"

/-- Replace every occurrence of `pat` by `rep` in a character list; the fuel
bounds the scan and is instantiated with the subject's length. -/
def replaceFuel (pat rep : List Char) : Nat → List Char → List Char
  | 0, s => s
  | _ + 1, [] => []
  | fuel + 1, c :: rest =>
    if pat ≠ [] ∧ pat.isPrefixOf (c :: rest) then
      rep ++ replaceFuel pat rep fuel ((c :: rest).drop pat.length)
    else
      c :: replaceFuel pat rep fuel rest

/-- Textual replacement of every occurrence of `pat` by `rep` in `s`
(non-recursive: a substituted value is never re-scanned). -/
def subst (pat rep s : String) : String :=
  String.mk (replaceFuel pat.data rep.data s.data.length s.data)

/-- Apply a replacement table to one string field. -/
def applyReplacements (repls : List (String × String)) (s : String) : String :=
  repls.foldl (fun acc r => subst r.1 r.2 acc) s

/-- Modelled from the spec: the value substituted for parameter `name` —
the bound value if a binding is present, else the task's declared default
when one exists, else nothing. -/
def paramValue (bindings : List Param) (defaults : List TaskParam) (name : String) :
    Option String :=
  match bindings.find? (fun p => p.name = name) with
  | some p => some p.value
  | none =>
    match defaults.find? (fun d => d.name = name) with
    | some d => d.defaultValue
    | none => none

/-- Modelled from the spec: the parameter replacement table — one entry per
parameter, bindings taking precedence over declared defaults. -/
def paramRepls (defaults : List TaskParam) (bindings : List Param) :
    List (String × String) :=
  (defaults.filterMap fun d =>
    if bindings.any (fun p => p.name = d.name) then none
    else d.defaultValue.map fun v => (paramKey d.name, v))
  ++ bindings.map fun p => (paramKey p.name, p.value)

example :
    applyReplacements
      (paramRepls [⟨"myarghasdefault", some "dont see me"⟩, ⟨"myarghasdefault2", some "thedefault"⟩]
        [⟨"myarg", "foo"⟩, ⟨"myarghasdefault", "bar"⟩])
      ("--my-arg-with-default=" ++ paramKey "myarghasdefault") =
    "--my-arg-with-default=bar" := by decide

/-! ## Status projector

Modelled from the spec (§4.4); messages pinned by `TestUpdateStatusFromPod`. -/

/-- Does this container status report a terminated state with a non-zero
exit code? -/
def ContainerStatus.isFailed (cs : ContainerStatus) : Bool :=
  match cs.state with
  | .terminated code => code ≠ 0
  | _ => false

/-- The failure message naming a failed step, its exit code and image
identifier, plus a log-retrieval hint. -/
def stepFailureMessage (ns podName : String) (cs : ContainerStatus) : String :=
  match cs.state with
  | .terminated code =>
    "build step \"" ++ cs.name ++ "\" exited with code " ++ toString code
      ++ " (image: \"" ++ cs.imageID ++ "\"); for logs run: kubectl -n "
      ++ ns ++ " logs " ++ podName ++ " -c " ++ cs.name
  | _ => ""

/-- Modelled from the spec: failure-message selection for a Failed unit —
first non-init container terminated with non-zero exit code, else the
unit's own top-level message, else a generic message. -/
def getFailureMessage (ns podName : String) (s : PodStatus) : String :=
  match s.containerStatuses.find? ContainerStatus.isFailed with
  | some cs => stepFailureMessage ns podName cs
  | none => if s.message ≠ "" then s.message else "build failed for unspecified reasons."

/-- Modelled from the spec: message selection for a Pending unit — first
non-init container waiting with a message, else a not-True pod-level
condition, else the unit's own message, else a bare `"Pending"`. -/
def getWaitingMessage (s : PodStatus) : String :=
  match s.containerStatuses.find? (fun cs =>
      match cs.state with
      | .waiting m => m ≠ ""
      | _ => false) with
  | some cs =>
    match cs.state with
    | .waiting m => "build step \"" ++ cs.name ++ "\" is pending with reason \"" ++ m ++ "\""
    | _ => ""
  | none =>
    match s.conditions.find? (fun c => c.condStatus ≠ "True") with
    | some c =>
      "pod status \"" ++ c.condType ++ "\":\"" ++ c.condStatus ++ "\"; message: \""
        ++ c.message ++ "\""
    | none => if s.message ≠ "" then s.message else "Pending"

/-- Modelled from the spec: the status projector `updateStatusFromPod` —
maps the unit's observed status to the run's `Succeeded` condition and the
per-step state list (only non-init containers are projected). -/
def updateStatusFromPod (ns podName : String) (s : PodStatus) :
    Condition × List ContainerState :=
  let cond : Condition :=
    match s.phase with
    | .succeeded => ⟨.conditionTrue, "", ""⟩
    | .failed => ⟨.conditionFalse, "", getFailureMessage ns podName s⟩
    | .pending => ⟨.conditionUnknown, "Pending", getWaitingMessage s⟩
    | .running => ⟨.conditionUnknown, "Building", ""⟩
    | .phaseUnset => ⟨.conditionUnknown, "Running", "Running"⟩
  (cond, s.containerStatuses.map ContainerStatus.state)

example :
    updateStatusFromPod "foo" "pod"
      { phase := .failed
        message := ""
        initContainerStatuses := [⟨"", "", .unset⟩]
        containerStatuses := [⟨"status-name", "image-id", .terminated 123⟩]
        conditions := [] } =
    (⟨.conditionFalse, "",
      "build step \"status-name\" exited with code 123 (image: \"image-id\"); for logs run: kubectl -n foo logs pod -c status-name"⟩,
     [.terminated 123]) := by decide

example :
    updateStatusFromPod "foo" "pod"
      { phase := .pending, message := "", initContainerStatuses := [],
        containerStatuses := [], conditions := [] } =
    (⟨.conditionUnknown, "Pending", "Pending"⟩, []) := by decide

/-! ## Reconciliation loop: resolution, cancellation, timeout, retry

Modelled from the spec (§4.1, §4.5); reason codes and messages pinned by
the tests. -/

/-- Is the run's `Succeeded` condition terminal (True or False)? -/
def TaskRunStatus.isDone (s : TaskRunStatus) : Bool :=
  match s.condition with
  | some c =>
    match c.status with
    | .conditionUnknown => false
    | _ => true
  | none => false

/-- Modelled from the spec: task resolution — inline spec verbatim if
present, else the named reference against its declared kind; `none` is a
resolution failure. -/
def resolveTaskSpec (tr : TaskRun) (tasks clusterTasks : List Task) : Option TaskSpec :=
  match tr.spec.taskSpec with
  | some ts => some ts
  | none =>
    match tr.spec.taskRef with
    | none => none
    | some ref =>
      match ref.kind with
      | .clusterTask => (clusterTasks.find? (fun t => t.name = ref.name)).map Task.spec
      | .task => (tasks.find? (fun t => t.name = ref.name)).map Task.spec

/-- The timeout-exhaustion message, with the Go rendering of the timeout. -/
def timeoutMessage (name : String) (d : Nat) : String :=
  "TaskRun \"" ++ name ++ "\" failed to finish within \"" ++ goDurationString d ++ "\""

/-- The cancellation message. -/
def cancelledMessage (name : String) : String :=
  "TaskRun \"" ++ name ++ "\" was cancelled"

/-- The system default timeout applied when the run sets none
(10 minutes, in nanoseconds). -/
def defaultTimeout : Nat := 600 * 1000000000

/-- Modelled from the spec: the retry evaluator `retryIfNeeded`, invoked
with a newly computed status. If consumed retries (length of the
prior-status list) are below the configured budget, the newly computed
status is archived onto the prior-status list (as pinned by
`TestReconcileOnFailedTaskRunWithRetry`, whose archived entry carries the
timeout failure), the execution-unit identifier is cleared and the live
condition is reset to a bare Unknown; otherwise the new status is applied
as-is. -/
def retryIfNeeded (tr : TaskRun) (newStatus : TaskRunStatus) : TaskRun :=
  if tr.status.retriesStatus.length < tr.spec.retries then
    { tr with status := (TaskRunStatus.mk (some ⟨.conditionUnknown, "", ""⟩) ""
        tr.status.startTime tr.status.steps (tr.status.retriesStatus ++ [newStatus])) }
  else
    { tr with status := newStatus }

/-- Modelled from the spec: the non-terminal, non-cancelled, resolved,
non-timed-out path — submit a fresh execution unit when none is recorded,
else project the fetched unit's status ( a missing unit surfaces a
retryable error). -/
def reconcileRunning (tr : TaskRun) (ts : TaskSpec) (inputSteps outputSteps : List Step)
    (pod : Option PodStatus) (now : Nat) : TaskRun × List Action × Option String :=
  if tr.status.podName = "" then
    ({ tr with status := (TaskRunStatus.mk (some ⟨.conditionUnknown, "Running", "Running"⟩)
        (tr.name ++ "-pod") (some (tr.status.startTime.getD now)) tr.status.steps
        tr.status.retriesStatus) },
     [.createPod (makePodInitContainers "") (makePodContainers inputSteps ts.steps outputSteps)],
     none)
  else
    match pod with
    | none => (tr, [], some ("error getting build pod \"" ++ tr.status.podName ++ "\""))
    | some p =>
      let r := updateStatusFromPod tr.ns tr.status.podName p
      ({ tr with status := (TaskRunStatus.mk (some r.1) tr.status.podName
          tr.status.startTime r.2 tr.status.retriesStatus) }, [], none)

/-- Modelled from the spec: one reconciliation pass over a run — terminal
statuses are left untouched; a cancelled run becomes False/TaskRunCancelled
with best-effort unit deletion; a resolution failure becomes
False/FailedResolution with no cluster action and no returned error; past
the deadline the timeout outcome is handed to the retry evaluator;
otherwise the unit is submitted or its status projected. -/
def reconcile (tr : TaskRun) (tasks clusterTasks : List Task)
    (inputSteps outputSteps : List Step) (pod : Option PodStatus) (now : Nat) :
    TaskRun × List Action × Option String :=
  if tr.status.isDone then (tr, [], none)
  else if tr.spec.status = taskRunSpecStatusCancelled then
    ({ tr with status := (tr.status.setCondition
        ⟨.conditionFalse, "TaskRunCancelled", cancelledMessage tr.name⟩) },
     if tr.status.podName ≠ "" then [.deletePod tr.status.podName] else [],
     none)
  else
    match resolveTaskSpec tr tasks clusterTasks with
    | none =>
      ({ tr with status := tr.status.setCondition ⟨.conditionFalse, "FailedResolution", ""⟩ },
       [], none)
    | some ts =>
      let timeoutNs := tr.spec.timeout.getD defaultTimeout
      match tr.status.startTime with
      | some st =>
        if st + timeoutNs < now then
          (retryIfNeeded tr (tr.status.setCondition
            ⟨.conditionFalse, "TaskRunTimeout", timeoutMessage tr.name timeoutNs⟩),
           if tr.status.podName ≠ "" then [.deletePod tr.status.podName] else [],
           none)
        else reconcileRunning tr ts inputSteps outputSteps pod now
      | none => reconcileRunning tr ts inputSteps outputSteps pod now

/-! ## Cancellation propagator

Embedded from `pkg/reconciler/v1alpha1/pipelinerun/cancel.go`
(`cancelPipelineRun`): the parent aggregate, its resolved child runs, and
the two client update calls per child, modelled as functions returning an
error message or `none`. -/

/-- The parent aggregate (`v1alpha1.PipelineRun`): identity and its
`Succeeded` condition. -/
structure PipelineRun where
  name : String
  ns : String
  condition : Option Condition
deriving DecidableEq, Repr

/-- A child run as held by a resolved pipeline task: its name and the
`spec.status` cancellation flag. -/
structure ChildTaskRun where
  name : String
  specStatus : String
deriving DecidableEq, Repr

/-- `resources.ResolvedPipelineRunTask`: a pipeline task together with its
child run when one has already been created (`nil` otherwise). -/
structure ResolvedPipelineRunTask where
  pipelineTaskName : String
  taskRun : Option ChildTaskRun
deriving DecidableEq, Repr

/-- The client calls `cancelPipelineRun` pushes per child: a status update
and a spec update. -/
inductive ClientAction where
  | updateStatus (tr : ChildTaskRun)
  | update (tr : ChildTaskRun)
deriving DecidableEq, Repr

/-- The loop body of `cancelPipelineRun` over `pipelineState`: children
without a taskrun are skipped; each child with one has its spec marked
cancelled, then both updates are pushed and their error messages
collected, continuing past failures. Returns the updated children, the
pushed client calls, and the collected error messages, all in order. -/
def cancelChildren (us u : ChildTaskRun → Option String) :
    List ResolvedPipelineRunTask →
    List ResolvedPipelineRunTask × List ClientAction × List String
  | [] => ([], [], [])
  | rprt :: rest =>
    match rprt.taskRun with
    | none =>
      let r := cancelChildren us u rest
      (rprt :: r.1, r.2.1, r.2.2)
    | some tr =>
      let tr2 := { tr with specStatus := taskRunSpecStatusCancelled }
      let r := cancelChildren us u rest
      ({ rprt with taskRun := some tr2 } :: r.1,
       ClientAction.updateStatus tr2 :: ClientAction.update tr2 :: r.2.1,
       (us tr2).toList ++ (u tr2).toList ++ r.2.2)

/-- Embedded from `cancel.go`: marks the parent condition
False/PipelineRunCancelled, cancels every resolved child, and joins all
collected error messages into one combined error (none when none
failed). -/
def cancelPipelineRun (pr : PipelineRun) (pipelineState : List ResolvedPipelineRunTask)
    (us u : ChildTaskRun → Option String) :
    PipelineRun × List ResolvedPipelineRunTask × List ClientAction × Option String :=
  let pr2 := { pr with condition := some ⟨.conditionFalse, "PipelineRunCancelled",
    "PipelineRun \"" ++ pr.name ++ "\" was cancelled"⟩ }
  let r := cancelChildren us u pipelineState
  (pr2, r.1, r.2.1,
   if r.2.2.length > 0 then
     some ("Error cancelled PipelineRun's TaskRun(s): " ++ String.intercalate "\n" r.2.2)
   else none)

/-- Following the spec's words: the child list with every child that
already has an associated execution identifier marked cancelled, the rest
untouched. -/
def cancelledStateSpec (state : List ResolvedPipelineRunTask) :
    List ResolvedPipelineRunTask :=
  state.map fun r =>
    { r with taskRun := r.taskRun.map fun tr =>
        { tr with specStatus := taskRunSpecStatusCancelled } }

/-- Following the spec's words: both a status update and a spec update are
pushed for every child with an associated execution identifier, skipping
the others. -/
def cancelActionsSpec (state : List ResolvedPipelineRunTask) : List ClientAction :=
  state.flatMap fun r =>
    match r.taskRun with
    | none => []
    | some tr =>
      [ClientAction.updateStatus { tr with specStatus := taskRunSpecStatusCancelled },
       ClientAction.update { tr with specStatus := taskRunSpecStatusCancelled }]

/-- Following the spec's words: the per-child error messages, collected in
order across all children. -/
def cancelErrsSpec (us u : ChildTaskRun → Option String)
    (state : List ResolvedPipelineRunTask) : List String :=
  state.flatMap fun r =>
    match r.taskRun with
    | none => []
    | some tr =>
      (us { tr with specStatus := taskRunSpecStatusCancelled }).toList
        ++ (u { tr with specStatus := taskRunSpecStatusCancelled }).toList

/-! ## Concrete fixtures from the test file -/

/-- Numeric value of a decimal digit character (used to read back the
post-file indices the builder generates). -/
def charVal (c : Char) : Nat := c.toNat - '0'.toNat

/-- Value of a most-significant-first decimal digit list. -/
def valOfChars (ds : List Char) : Nat := ds.foldl (fun acc c => acc * 10 + charVal c) 0

/-- The single step of `simpleTask` (`tb.Step("simple-step", "foo",
tb.Command("/mycmd"))`). -/
def simpleStepEx : Step := ⟨"simple-step", "foo", ["/mycmd"], []⟩

/-- The git input-resource fetch step of the `params` test case. -/
def gitStepEx : Step :=
  ⟨"git-source-git-resource-9l9zj", "override-with-git:latest", ["/ko-app/git-init"],
   ["-url", "https://foo.git", "-revision", "master", "-path", "/workspace/workspace"]⟩

/-- `simpleTask` (`tb.Task("test-task", "foo", ...)`). -/
def simpleTaskEx : Task := ⟨"test-task", ⟨[simpleStepEx], []⟩⟩

/-- A bare Unknown in-flight status with a recorded pod. -/
def statusUnknownWithPod : TaskRunStatus :=
  .mk (some ⟨.conditionUnknown, "", ""⟩) "test-pod" none [] []

/-- The run of `TestReconcileOnFailedTaskRunWithRetry` (retry budget 1,
timeout 1µs, in-flight Unknown condition). -/
def trRetryEx : TaskRun :=
  { name := "test-taskrun-failed-with-retryIfNeeded", ns := "foo"
    spec := { taskRef := some ⟨"test-task", .task⟩, taskSpec := none, params := [],
              timeout := some 1000, retries := 1, status := "" }
    status := statusUnknownWithPod }

/-- The newly computed timeout failure status handed to the retry
evaluator for `trRetryEx`. -/
def newStatusTimeoutEx : TaskRunStatus :=
  statusUnknownWithPod.setCondition
    ⟨.conditionFalse, "TaskRunTimeout",
     timeoutMessage "test-taskrun-failed-with-retryIfNeeded" 1000⟩

/-- The run of `TestReconcileOnTimedOutTaskRun` (timeout 10s, started 15s
before the reconciliation instant, no retries). -/
def trTimeoutEx : TaskRun :=
  { name := "test-taskrun-timeout", ns := "foo"
    spec := { taskRef := some ⟨"test-task", .task⟩, taskSpec := none, params := [],
              timeout := some 10000000000, retries := 0, status := "" }
    status := .mk (some ⟨.conditionUnknown, "", ""⟩) "test-pod" (some 0) [] [] }

/-- The run of `TestReconcileOnCancelledTaskRun` (spec marked cancelled,
in-flight Unknown condition). -/
def trCancelledEx : TaskRun :=
  { name := "test-taskrun-run-cancelled", ns := "foo"
    spec := { taskRef := some ⟨"test-task", .task⟩, taskSpec := none, params := [],
              timeout := none, retries := 0, status := taskRunSpecStatusCancelled }
    status := .mk (some ⟨.conditionUnknown, "", ""⟩) "" none [] [] }

/-- The run of `TestReconcile_InvalidTaskRuns` referencing a task that does
not exist (`tb.TaskRunTaskRef("notask")`). -/
def trNoTaskEx : TaskRun :=
  { name := "notaskrun", ns := "foo"
    spec := { taskRef := some ⟨"notask", .task⟩, taskSpec := none, params := [],
              timeout := none, retries := 0, status := "" }
    status := .mk none "" none [] [] }

/-- The run of `TestReconcileOnCompletedTaskRun` (terminal True
condition). -/
def trDoneEx : TaskRun :=
  { name := "test-taskrun-run-success", ns := "foo"
    spec := { taskRef := some ⟨"test-task", .task⟩, taskSpec := none, params := [],
              timeout := none, retries := 0, status := "" }
    status := .mk (some ⟨.conditionTrue, "Build succeeded", "Build succeeded"⟩) "" none [] [] }

/-- The `failure-terminated` pod status of `TestUpdateStatusFromPod`. -/
def podStatusFailedEx : PodStatus :=
  { phase := .failed
    message := ""
    initContainerStatuses := [⟨"", "", .unset⟩]
    containerStatuses := [⟨"status-name", "image-id", .terminated 123⟩]
    conditions := [] }

/-- The declared parameters of `templatedTask` that carry defaults. -/
def templatedDefaultsEx : List TaskParam :=
  [⟨"myarg", none⟩, ⟨"myarghasdefault", some "dont see me"⟩,
   ⟨"myarghasdefault2", some "thedefault"⟩, ⟨"configmapname", none⟩]

/-- The parameter bindings of `taskRunTemplating`. -/
def templatedBindingsEx : List Param :=
  [⟨"myarg", "foo"⟩, ⟨"myarghasdefault", "bar"⟩, ⟨"configmapname", "configbar"⟩]

/-! ## Helper lemmas: decimal rendering of post-file indices -/

theorem toDigitsCore_append (f : Nat) :
    ∀ (n : Nat) (ds : List Char),
      Nat.toDigitsCore 10 f n ds = Nat.toDigitsCore 10 f n [] ++ ds := by
  induction f with
  | zero => intro n ds; simp [Nat.toDigitsCore]
  | succ f ih =>
    intro n ds
    simp only [Nat.toDigitsCore]
    by_cases h : n / 10 = 0
    · simp [h]
    · rw [if_neg h, if_neg h, ih (n / 10) (Nat.digitChar (n % 10) :: ds),
        ih (n / 10) [Nat.digitChar (n % 10)]]
      simp

theorem valOfChars_concat (ds : List Char) (c : Char) :
    valOfChars (ds ++ [c]) = valOfChars ds * 10 + charVal c := by
  simp [valOfChars, List.foldl_append]

theorem charVal_digitChar (d : Nat) (h : d < 10) : charVal (Nat.digitChar d) = d := by
  interval_cases d <;> rfl

theorem valOfChars_toDigitsCore (f : Nat) :
    ∀ n : Nat, n < f → valOfChars (Nat.toDigitsCore 10 f n []) = n := by
  induction f with
  | zero => intro n h; omega
  | succ f ih =>
    intro n h
    simp only [Nat.toDigitsCore]
    by_cases h0 : n / 10 = 0
    · rw [if_pos h0]
      have hn : n < 10 := by omega
      have := charVal_digitChar (n % 10) (by omega)
      simp [valOfChars, this]
      omega
    · rw [if_neg h0, toDigitsCore_append f (n / 10) [Nat.digitChar (n % 10)],
        valOfChars_concat, ih (n / 10) (by omega), charVal_digitChar (n % 10) (by omega)]
      omega

theorem valOfChars_toDigits (n : Nat) : valOfChars (Nat.toDigits 10 n) = n :=
  valOfChars_toDigitsCore (n + 1) n (Nat.lt_succ_self n)

theorem natToString_inj (m n : Nat) (h : toString m = toString n) : m = n := by
  have h1 : Nat.repr m = Nat.repr n := h
  have h2 : Nat.toDigits 10 m = Nat.toDigits 10 n := congrArg String.data h1
  have h4 := congrArg valOfChars h2
  rwa [valOfChars_toDigits, valOfChars_toDigits] at h4

theorem postFile_inj (i j : Nat) (h : postFile i = postFile j) : i = j := by
  apply natToString_inj
  apply String.ext
  have h2 := congrArg String.data h
  simp only [postFile, String.data_append] at h2
  exact (List.append_right_inj _).mp h2

/-! ## Claim theorems -/

/-- C3: for a run resolving to a task with N steps, the built unit holds
exactly N user-step containers plus the fetch/copy containers bound to
resources and the terminal container; position `i` of the user-visible
sequence is that step with its entry point replaced by the synchronization
helper, waiting on the previous position's post file (empty at position 0)
and posting a file unique to position `i` — the post-file indices are the
positions themselves, hence strictly increasing and contiguous. -/
theorem C3_user_steps_redirected (inputSteps taskSteps outputSteps : List Step) :
    (makePodContainers inputSteps taskSteps outputSteps).length
        = inputSteps.length + taskSteps.length + outputSteps.length + 1
    ∧ (∀ i : Nat, (makeUserContainers (inputSteps ++ taskSteps ++ outputSteps))[i]?
        = ((inputSteps ++ taskSteps ++ outputSteps)[i]?).map (makeRedirectedContainer i))
    ∧ (∀ i : Nat, ∀ c : Container,
        (makeUserContainers (inputSteps ++ taskSteps ++ outputSteps))[i]? = some c →
          c.command = [entrypointLocation]
          ∧ waitFileOf c = some (if i = 0 then "" else postFile (i - 1))
          ∧ postFileOf c = some (postFile i))
    ∧ (∀ i j : Nat, postFile i = postFile j → i = j) := by
  refine ⟨?_, ?_, ?_, postFile_inj⟩
  · simp [makePodContainers, makeUserContainers]
    omega
  · intro i
    simp only [makeUserContainers, List.getElem?_map, List.getElem?_enum]
    cases (inputSteps ++ taskSteps ++ outputSteps)[i]? <;> simp
  · intro i c hc
    simp [makeUserContainers, List.getElem?_enum] at hc
    obtain ⟨s, hs, rfl⟩ := hc
    refine ⟨rfl, ?_, ?_⟩
    · simp [makeRedirectedContainer, waitFileOf, waitFileAt]
    · simp [makeRedirectedContainer, postFileOf]

/-- C3 witness: the `params` test case — git fetch container then two task
steps; position 1 waits on post file 0 and posts post file 1. -/
theorem C3_user_steps_redirected_witness :
    ((makeUserContainers ([gitStepEx] ++ [simpleStepEx, simpleStepEx] ++ []))[1]? =
        some (makeRedirectedContainer 1 simpleStepEx))
    ∧ (makePodContainers [gitStepEx] [simpleStepEx, simpleStepEx] []).length = 4
    ∧ waitFileOf (makeRedirectedContainer 1 simpleStepEx) = some (postFile 0)
    ∧ postFileOf (makeRedirectedContainer 1 simpleStepEx) = some (postFile 1)
    ∧ postFile 0 = "/builder/tools/0" ∧ postFile 1 = "/builder/tools/1" := by
  have h := C3_user_steps_redirected [gitStepEx] [simpleStepEx, simpleStepEx] []
  refine ⟨?_, h.1, ?_, ?_, by decide, by decide⟩
  · rw [h.2.1 1]; decide
  · exact (h.2.2.1 1 (makeRedirectedContainer 1 simpleStepEx) (by rw [h.2.1 1]; decide)).2.1
  · exact (h.2.2.1 1 (makeRedirectedContainer 1 simpleStepEx) (by rw [h.2.1 1]; decide)).2.2

/-- C4 counterexample: on the one-step task of the `success` test case the
terminal container is the fixed `nop` container, whose entry point is not
redirected — it carries no wait path at all, in particular not the last
real step's post path `/builder/tools/0`. -/
theorem C4_sentinel_counterexample :
    (makePodContainers [] [simpleStepEx] []).getLast? = some nopContainer
    ∧ postFileOf (makeRedirectedContainer 0 simpleStepEx) = some (postFile 0)
    ∧ waitFileOf nopContainer = none
    ∧ waitFileOf nopContainer ≠ some (postFile 0) := by decide

/-- C4 (amended): every built execution unit ends in the terminal sentinel
container with the fixed sentinel image and command; its entry point is
not redirected, so it has no wait path (rather than a wait path equal to
the last real step's post path). -/
theorem C4_sentinel_appended (inputSteps taskSteps outputSteps : List Step) :
    (makePodContainers inputSteps taskSteps outputSteps).getLast? = some nopContainer
    ∧ nopContainer.image = "override-with-nop:latest"
    ∧ nopContainer.command = ["/ko-app/nop"]
    ∧ waitFileOf nopContainer = none :=
  ⟨List.getLast?_concat _, rfl, rfl, rfl⟩

theorem condition_setCondition (s : TaskRunStatus) (c : Condition) :
    (s.setCondition c).condition = some c := by
  cases s; rfl

/-- C1 (amended): when the newly computed status is False and consumed
retries are below the budget, one reconciliation archives the newly
computed failure status onto the prior-status list (the list grows by
exactly one entry equal to that new status), clears the execution-unit
identifier, and resets the live condition to a bare Unknown. -/
theorem C1_retry_archives_new_status (tr : TaskRun) (newStatus : TaskRunStatus)
    (_hfail : ∃ c : Condition, newStatus.condition = some c ∧ c.status = .conditionFalse)
    (hbudget : tr.status.retriesStatus.length < tr.spec.retries) :
    (retryIfNeeded tr newStatus).status.retriesStatus
        = tr.status.retriesStatus ++ [newStatus]
    ∧ (retryIfNeeded tr newStatus).status.podName = ""
    ∧ (retryIfNeeded tr newStatus).status.condition = some ⟨.conditionUnknown, "", ""⟩ := by
  obtain ⟨tname, tns, tspec, tstatus⟩ := tr
  obtain ⟨c0, p0, st0, steps0, rs0⟩ := tstatus
  simp only [TaskRunStatus.retriesStatus] at hbudget
  simp [retryIfNeeded, hbudget, TaskRunStatus.retriesStatus, TaskRunStatus.podName,
    TaskRunStatus.condition]

/-- C1 witness: the retry evaluator applied to the run and timeout status
of `TestReconcileOnFailedTaskRunWithRetry`. -/
theorem C1_retry_archives_new_status_witness :
    ((retryIfNeeded trRetryEx newStatusTimeoutEx).status.retriesStatus
        = trRetryEx.status.retriesStatus ++ [newStatusTimeoutEx])
    ∧ (retryIfNeeded trRetryEx newStatusTimeoutEx).status.podName = ""
    ∧ (retryIfNeeded trRetryEx newStatusTimeoutEx).status.condition
        = some ⟨.conditionUnknown, "", ""⟩ :=
  C1_retry_archives_new_status trRetryEx newStatusTimeoutEx
    ⟨⟨.conditionFalse, "TaskRunTimeout",
        timeoutMessage "test-taskrun-failed-with-retryIfNeeded" 1000⟩, rfl, rfl⟩
    (by decide)

/-- C1 counterexample: on the run of
`TestReconcileOnFailedTaskRunWithRetry` (live condition a bare Unknown)
the single archived entry carries the new False/TaskRunTimeout condition —
the list does not grow by an entry equal to the pre-failure status. -/
theorem C1_archives_prior_counterexample :
    ((retryIfNeeded trRetryEx newStatusTimeoutEx).status.retriesStatus.map
        TaskRunStatus.condition)
      = [some ⟨.conditionFalse, "TaskRunTimeout",
          timeoutMessage "test-taskrun-failed-with-retryIfNeeded" 1000⟩]
    ∧ trRetryEx.status.condition = some ⟨.conditionUnknown, "", ""⟩
    ∧ ((retryIfNeeded trRetryEx newStatusTimeoutEx).status.retriesStatus.map
        TaskRunStatus.condition) ≠ [trRetryEx.status.condition] := by decide

/-- C10: a run whose `Succeeded` condition is already terminal with status
True is left entirely unchanged by reconciliation (same condition, no
cluster actions, no error). -/
theorem C10_terminal_success_stable (tr : TaskRun) (tasks clusterTasks : List Task)
    (inputSteps outputSteps : List Step) (pod : Option PodStatus) (now : Nat)
    (c : Condition) (hc : tr.status.condition = some c)
    (htrue : c.status = .conditionTrue) :
    reconcile tr tasks clusterTasks inputSteps outputSteps pod now = (tr, [], none) := by
  have hdone : tr.status.isDone = true := by
    simp [TaskRunStatus.isDone, hc, htrue]
  simp [reconcile, hdone]

/-- C10 witness: the completed run of `TestReconcileOnCompletedTaskRun`. -/
theorem C10_terminal_success_stable_witness :
    reconcile trDoneEx [simpleTaskEx] [] [] [] none 0 = (trDoneEx, [], none) :=
  C10_terminal_success_stable trDoneEx [simpleTaskEx] [] [] [] none 0
    ⟨.conditionTrue, "Build succeeded", "Build succeeded"⟩ rfl rfl

/-- C6: a cancelled, non-terminal run transitions to
False/TaskRunCancelled with the exact message, without any step
processing (no execution unit built or created) and with no error. -/
theorem C6_cancelled_run (tr : TaskRun) (tasks clusterTasks : List Task)
    (inputSteps outputSteps : List Step) (pod : Option PodStatus) (now : Nat)
    (hdone : tr.status.isDone = false)
    (hcancelled : tr.spec.status = taskRunSpecStatusCancelled) :
    (reconcile tr tasks clusterTasks inputSteps outputSteps pod now).1.status.condition
        = some ⟨.conditionFalse, "TaskRunCancelled", cancelledMessage tr.name⟩
    ∧ (∀ a ∈ (reconcile tr tasks clusterTasks inputSteps outputSteps pod now).2.1,
        ∀ ic cs, a ≠ Action.createPod ic cs)
    ∧ (reconcile tr tasks clusterTasks inputSteps outputSteps pod now).2.2 = none := by
  have hr : reconcile tr tasks clusterTasks inputSteps outputSteps pod now =
      ({ tr with status := (tr.status.setCondition
          ⟨.conditionFalse, "TaskRunCancelled", cancelledMessage tr.name⟩) },
       if tr.status.podName ≠ "" then [.deletePod tr.status.podName] else [], none) := by
    simp [reconcile, hdone, hcancelled]
  rw [hr]
  refine ⟨condition_setCondition _ _, ?_, rfl⟩
  intro a ha ic cs
  rcases Decidable.em (tr.status.podName ≠ "") with hp | hp
  · rw [if_pos hp] at ha
    simp at ha
    subst ha
    simp
  · rw [if_neg hp] at ha
    simp at ha

/-- C6 witness: the cancelled run of `TestReconcileOnCancelledTaskRun`,
with the exact message of the test. -/
theorem C6_cancelled_run_witness :
    (reconcile trCancelledEx [simpleTaskEx] [] [] [] none 0).1.status.condition
      = some ⟨.conditionFalse, "TaskRunCancelled",
          "TaskRun \"test-taskrun-run-cancelled\" was cancelled"⟩
    ∧ (reconcile trCancelledEx [simpleTaskEx] [] [] [] none 0).2.2 = none := by
  have h := C6_cancelled_run trCancelledEx [simpleTaskEx] [] [] [] none 0 rfl rfl
  exact ⟨by rw [h.1]; decide, h.2.2⟩

/-- C2: a run whose task reference resolves to nothing transitions to
condition False with reason FailedResolution, requests no cluster action
(in particular creates no execution unit), and returns no error to the
caller. -/
theorem C2_failed_resolution (tr : TaskRun) (tasks clusterTasks : List Task)
    (inputSteps outputSteps : List Step) (pod : Option PodStatus) (now : Nat)
    (hdone : tr.status.isDone = false)
    (hcancelled : tr.spec.status ≠ taskRunSpecStatusCancelled)
    (hres : resolveTaskSpec tr tasks clusterTasks = none) :
    ((reconcile tr tasks clusterTasks inputSteps outputSteps pod now).1.status.condition.map
        Condition.status = some .conditionFalse)
    ∧ ((reconcile tr tasks clusterTasks inputSteps outputSteps pod now).1.status.condition.map
        Condition.reason = some "FailedResolution")
    ∧ (reconcile tr tasks clusterTasks inputSteps outputSteps pod now).2.1 = []
    ∧ (reconcile tr tasks clusterTasks inputSteps outputSteps pod now).2.2 = none := by
  have hr : reconcile tr tasks clusterTasks inputSteps outputSteps pod now =
      ({ tr with status := (tr.status.setCondition
          ⟨.conditionFalse, "FailedResolution", ""⟩) }, [], none) := by
    simp [reconcile, hdone, hcancelled, hres]
  rw [hr]
  refine ⟨?_, ?_, rfl, rfl⟩ <;> simp [condition_setCondition]

/-- C2 witness: the `notaskrun` run of `TestReconcile_InvalidTaskRuns`,
whose reference names a task that does not exist. -/
theorem C2_failed_resolution_witness :
    ((reconcile trNoTaskEx [simpleTaskEx] [] [] [] none 0).1.status.condition.map
        Condition.status = some .conditionFalse)
    ∧ ((reconcile trNoTaskEx [simpleTaskEx] [] [] [] none 0).1.status.condition.map
        Condition.reason = some "FailedResolution")
    ∧ (reconcile trNoTaskEx [simpleTaskEx] [] [] [] none 0).2.1 = []
    ∧ (reconcile trNoTaskEx [simpleTaskEx] [] [] [] none 0).2.2 = none :=
  C2_failed_resolution trNoTaskEx [simpleTaskEx] [] [] [] none 0 rfl (by decide) (by decide)

/-- C5: a non-terminal, non-cancelled, resolvable run past its configured
deadline with its retry budget exhausted transitions to condition False,
reason TaskRunTimeout, with the exact timeout message. -/
theorem C5_timeout_exhausted (tr : TaskRun) (tasks clusterTasks : List Task)
    (inputSteps outputSteps : List Step) (pod : Option PodStatus) (now st timeoutNs : Nat)
    (hdone : tr.status.isDone = false)
    (hcancelled : tr.spec.status ≠ taskRunSpecStatusCancelled)
    (ts : TaskSpec) (hres : resolveTaskSpec tr tasks clusterTasks = some ts)
    (hst : tr.status.startTime = some st)
    (hto : tr.spec.timeout = some timeoutNs)
    (helapsed : st + timeoutNs < now)
    (hbudget : tr.spec.retries ≤ tr.status.retriesStatus.length) :
    (reconcile tr tasks clusterTasks inputSteps outputSteps pod now).1.status.condition
      = some ⟨.conditionFalse, "TaskRunTimeout", timeoutMessage tr.name timeoutNs⟩ := by
  have hnot : ¬ (tr.status.retriesStatus.length < tr.spec.retries) := by omega
  simp [reconcile, hdone, hcancelled, hres, hst, hto, helapsed, retryIfNeeded, hnot,
    condition_setCondition]

/-- C5 witness: the run of `TestReconcileOnTimedOutTaskRun` (timeout 10s,
started 15s before the reconciliation instant), with the exact message of
the test. -/
theorem C5_timeout_exhausted_witness :
    (reconcile trTimeoutEx [simpleTaskEx] [] [] [] none 15000000000).1.status.condition
      = some ⟨.conditionFalse, "TaskRunTimeout",
          "TaskRun \"test-taskrun-timeout\" failed to finish within \"10s\""⟩ := by
  have h := C5_timeout_exhausted trTimeoutEx [simpleTaskEx] [] [] [] none
    15000000000 0 10000000000 rfl (by decide) ⟨[simpleStepEx], []⟩ rfl rfl rfl
    (by decide) (by decide)
  rw [h]
  decide

/-- C7: for a Failed unit the projector is independent of init-stage
container statuses, projects exactly the non-init container states as
per-step state, yields condition False (no reason), and selects the
message from the first non-init container terminated with a non-zero exit
code (naming step, image identifier, exit code and a log hint), else the
unit's own message verbatim, else the generic unspecified-reasons
message. -/
theorem C7_failed_projection (ns pn : String) (s : PodStatus)
    (inits : List ContainerStatus) (hphase : s.phase = .failed) :
    updateStatusFromPod ns pn { s with initContainerStatuses := inits }
        = updateStatusFromPod ns pn s
    ∧ (updateStatusFromPod ns pn s).2 = s.containerStatuses.map ContainerStatus.state
    ∧ (updateStatusFromPod ns pn s).1.status = .conditionFalse
    ∧ (updateStatusFromPod ns pn s).1.reason = ""
    ∧ (∀ cs, s.containerStatuses.find? ContainerStatus.isFailed = some cs →
        (updateStatusFromPod ns pn s).1.message = stepFailureMessage ns pn cs)
    ∧ (s.containerStatuses.find? ContainerStatus.isFailed = none → s.message ≠ "" →
        (updateStatusFromPod ns pn s).1.message = s.message)
    ∧ (s.containerStatuses.find? ContainerStatus.isFailed = none → s.message = "" →
        (updateStatusFromPod ns pn s).1.message = "build failed for unspecified reasons.") := by
  have hinit : updateStatusFromPod ns pn { s with initContainerStatuses := inits }
      = updateStatusFromPod ns pn s := by
    cases s; rfl
  have hu : updateStatusFromPod ns pn s =
      (⟨.conditionFalse, "", getFailureMessage ns pn s⟩,
       s.containerStatuses.map ContainerStatus.state) := by
    simp [updateStatusFromPod, hphase]
  refine ⟨hinit, by rw [hu], by rw [hu], by rw [hu], ?_, ?_, ?_⟩
  · intro cs hf
    rw [hu]
    simp [getFailureMessage, hf]
  · intro hf hm
    rw [hu]
    simp [getFailureMessage, hf, hm]
  · intro hf hm
    rw [hu]
    simp [getFailureMessage, hf, hm]

/-- C7 witness: the `failure-terminated` case of `TestUpdateStatusFromPod`
with an ignored init container status, producing the exact message of the
test. -/
theorem C7_failed_projection_witness :
    (updateStatusFromPod "foo" "pod" podStatusFailedEx).1.status = .conditionFalse
    ∧ (updateStatusFromPod "foo" "pod" podStatusFailedEx).2 = [.terminated 123]
    ∧ (updateStatusFromPod "foo" "pod" podStatusFailedEx).1.message =
        "build step \"status-name\" exited with code 123 (image: \"image-id\"); for logs run: kubectl -n foo logs pod -c status-name" := by
  have h := C7_failed_projection "foo" "pod" podStatusFailedEx [] rfl
  refine ⟨h.2.2.1, by rw [h.2.1]; decide, ?_⟩
  rw [h.2.2.2.2.1 ⟨"status-name", "image-id", .terminated 123⟩ (by decide)]
  decide

/-- C8: the templating engine substitutes the explicitly bound value for a
parameter expression when a binding is present, and otherwise the task's
declared default — a binding takes precedence over a default, and a
defaulted parameter with no binding yields its default. -/
theorem C8_param_binding_precedence (defaults : List TaskParam) (bindings : List Param)
    (name v : String) (d : TaskParam) :
    (bindings.find? (fun p => p.name = name) = some ⟨name, v⟩ →
      paramValue bindings defaults name = some v)
    ∧ (bindings.find? (fun p => p.name = name) = none →
       defaults.find? (fun p => p.name = name) = some d →
       paramValue bindings defaults name = d.defaultValue) := by
  constructor
  · intro hb
    simp [paramValue, hb]
  · intro hb hd
    simp [paramValue, hb, hd]

/-- C8 witness: the parameters of `templatedTask` bound by
`taskRunTemplating` — `myarghasdefault` is bound to `bar`, overriding its
default; `myarghasdefault2` is unbound and yields its default — including
the end-to-end substitution into the test's step arguments. -/
theorem C8_param_binding_precedence_witness :
    paramValue templatedBindingsEx templatedDefaultsEx "myarghasdefault" = some "bar"
    ∧ paramValue templatedBindingsEx templatedDefaultsEx "myarghasdefault2"
        = some "thedefault"
    ∧ applyReplacements (paramRepls templatedDefaultsEx templatedBindingsEx)
        ("--my-arg-with-default=" ++ paramKey "myarghasdefault")
        = "--my-arg-with-default=bar"
    ∧ applyReplacements (paramRepls templatedDefaultsEx templatedBindingsEx)
        ("--my-arg-with-default2=" ++ paramKey "myarghasdefault2")
        = "--my-arg-with-default2=thedefault" :=
  ⟨(C8_param_binding_precedence templatedDefaultsEx templatedBindingsEx
      "myarghasdefault" "bar" ⟨"myarghasdefault", some "dont see me"⟩).1 (by decide),
   (C8_param_binding_precedence templatedDefaultsEx templatedBindingsEx
      "myarghasdefault2" "unused" ⟨"myarghasdefault2", some "thedefault"⟩).2
     (by decide) (by decide),
   by decide, by decide⟩

theorem cancelChildren_eq (us u : ChildTaskRun → Option String) :
    ∀ state : List ResolvedPipelineRunTask,
      cancelChildren us u state =
        (cancelledStateSpec state, cancelActionsSpec state, cancelErrsSpec us u state) := by
  intro state
  induction state with
  | nil => rfl
  | cons rprt rest ih =>
    obtain ⟨ptn, otr⟩ := rprt
    cases otr <;>
      simp [cancelChildren, cancelledStateSpec, cancelActionsSpec, cancelErrsSpec, ih]

/-- C9: the cancellation propagator marks the parent condition
False/PipelineRunCancelled, marks every child that already has an
associated taskrun as cancelled while skipping the rest, pushes both a
status update and a spec update for each such child (continuing past
failures: the pushed calls do not depend on the update outcomes), and
returns all collected error messages joined as one combined error, or none
when no update failed. -/
theorem C9_cancel_propagator (pr : PipelineRun) (state : List ResolvedPipelineRunTask)
    (us u : ChildTaskRun → Option String) :
    (cancelPipelineRun pr state us u).1.condition
      = some ⟨.conditionFalse, "PipelineRunCancelled",
          "PipelineRun \"" ++ pr.name ++ "\" was cancelled"⟩
    ∧ (cancelPipelineRun pr state us u).2.1 = cancelledStateSpec state
    ∧ (cancelPipelineRun pr state us u).2.2.1 = cancelActionsSpec state
    ∧ (cancelPipelineRun pr state us u).2.2.2
      = (if (cancelErrsSpec us u state).isEmpty then none
         else some ("Error cancelled PipelineRun's TaskRun(s): "
            ++ String.intercalate "\n" (cancelErrsSpec us u state))) := by
  have hc := cancelChildren_eq us u state
  refine ⟨rfl, ?_, ?_, ?_⟩
  · simp [cancelPipelineRun, hc]
  · simp [cancelPipelineRun, hc]
  · simp only [cancelPipelineRun, hc]
    cases cancelErrsSpec us u state <;> simp

end Pipeline
